import Mathlib

/-
Shallow embedding of the api-batcher repository (src/strategy.py and
src/batcher.py).

Modelling decisions:
- A Python exception is a PyError value.  RuntimeError values raised by the
  precondition checks and by push are modelled by the runtime constructor
  with the exact message the source formats; NotImplementedError raised by
  BatchStrategy.do is the notImplemented constructor; an exception raised by
  an entity action method is the entityError constructor.
- An entity is modelled by a numeric identity plus its behaviour: for each
  action name, invoking the method of that name either returns normally or
  raises (Except String Unit).  The source dispatches via getattr only after
  the action was validated, so behaviour is only ever consulted at valid
  action names.
- The observable effect of a strategy run is the ordered list of entity
  method invocations it performed (Event values) together with the raised
  exception, if any.  The concurrent strategy additionally yields the
  per-entity logged outcomes (Outcome values).  The thread completion order
  of ConcurrentStrategy.do is nondeterministic; the model lists outcomes in
  input order, and theorems about the concurrent strategy only assert
  order-insensitive consequences (lengths, permutations, memberships).
- Strategy selection: API_STRATEGY in batcher.py is a defaultdict whose
  default factory is the ConcurrentStrategy class and whose stored values
  are the three strategy classes themselves.  Looking up a recognized key
  returns the stored class object; looking up a missing key (None or an
  unrecognized string) calls the factory and returns a fresh
  ConcurrentStrategy instance.  StrategyRef distinguishes the two shapes.
-/

/-- A raised Python exception, as distinguished by the source. -/
inductive PyError where
  | runtime (msg : String)
  | notImplemented (msg : String)
  | entityError (msg : String)
  deriving DecidableEq

/-- RuntimeError raised by BaseStrategy.do for an action outside valid_actions. -/
def invalidActionError (a : String) : PyError :=
  PyError.runtime ("Invalid action " ++ a)

/-- RuntimeError raised by BaseStrategy.do for an empty entity sequence. -/
def emptyInputError : PyError := PyError.runtime "No entities to process"

/-- RuntimeError raised by ApiBatcher.push on an empty queue. -/
def emptyQueueError : PyError := PyError.runtime "No entity in the queue"

/-- NotImplementedError raised by BatchStrategy.do. -/
def notImplementedErr : PyError := PyError.notImplemented "Come back later"

/-- An entity object: an identity and, for each action name, the result of
invoking the method of that name (normal return or raised message). -/
structure Entity where
  eid : Nat
  beh : String → Except String Unit

/-- One performed entity method invocation: getattr(entity, action)(). -/
structure Event where
  eid : Nat
  act : String
  deriving DecidableEq

/-- A per-entity logged outcome of the concurrent strategy: the info-level
log entry on success, the error-level log entry on failure. -/
inductive Outcome where
  | success (eid : Nat) (act : String)
  | failure (eid : Nat) (act : String) (msg : String)
  deriving DecidableEq

/-- The entity an outcome refers to. -/
def Outcome.eid : Outcome → Nat
  | .success e _ => e
  | .failure e _ _ => e

/-- The action names of strategy.py. -/
def API_POST : String := "post"

/-- The sync action name of strategy.py. -/
def API_SYNC : String := "sync"

/-- BaseStrategy.valid_actions. -/
def valid_actions : List String := [API_POST, API_SYNC]

/-- BaseStrategy.do: the precondition checks, action first, emptiness
second; some err models a raised RuntimeError. -/
def baseDo (a : String) (es : List Entity) : Option PyError :=
  if a ∈ valid_actions then
    if es.isEmpty then some emptyInputError else none
  else some (invalidActionError a)

/-- The loop body of SequentialStrategy.do: invoke the action on each entity
in order; a raised exception propagates at once, ending the loop. -/
def seqLoop (a : String) : List Entity → List Event × Option PyError
  | [] => ([], none)
  | e :: es =>
      match e.beh a with
      | Except.ok _ =>
          let r := seqLoop a es
          (Event.mk e.eid a :: r.1, r.2)
      | Except.error msg => ([Event.mk e.eid a], some (PyError.entityError msg))

/-- SequentialStrategy.do: the inherited precondition checks, then the loop. -/
def seqDo (a : String) (es : List Entity) : List Event × Option PyError :=
  match baseDo a es with
  | some err => ([], some err)
  | none => seqLoop a es

/-- The outcome ConcurrentStrategy.do logs for one entity, from the
exception state of its future. -/
def outcomeOf (a : String) (e : Entity) : Outcome :=
  match e.beh a with
  | Except.ok _ => Outcome.success e.eid a
  | Except.error msg => Outcome.failure e.eid a msg

/-- ConcurrentStrategy.do: the inherited precondition checks, then one
worker per entity, all joined; every worker invokes its action, every
future yields exactly one logged outcome, and a worker failure is logged,
never re-raised.  Input order stands in for the nondeterministic completion
order; only order-insensitive facts are asserted about it. -/
def concDo (a : String) (es : List Entity) :
    List Event × List Outcome × Option PyError :=
  match baseDo a es with
  | some err => ([], [], some err)
  | none => (es.map (fun e => Event.mk e.eid a), es.map (outcomeOf a), none)

/-- BatchStrategy.do: raises NotImplementedError unconditionally, without
calling the precondition checks and without touching any entity. -/
def batchDo (_a : String) (_es : List Entity) : List Event × Option PyError :=
  ([], some notImplementedErr)

/-- The three strategy classes of strategy.py. -/
inductive StrategyKind where
  | sequential
  | concurrent
  | batch
  deriving DecidableEq

/-- A value stored in or produced by the API_STRATEGY lookup: either a
constructed strategy instance or a strategy class object itself. -/
inductive StrategyRef where
  | inst (k : StrategyKind)
  | cls (k : StrategyKind)
  deriving DecidableEq

/-- batcher.py API_STRATEGY: a defaultdict from mode strings to the strategy
class objects, whose default factory constructs a ConcurrentStrategy
instance; the argument none models os.getenv returning None. -/
def API_STRATEGY (apiMode : Option String) : StrategyRef :=
  match apiMode with
  | none => StrategyRef.inst StrategyKind.concurrent
  | some m =>
      if m = "sequential" then StrategyRef.cls StrategyKind.sequential
      else if m = "concurrent" then StrategyRef.cls StrategyKind.concurrent
      else if m = "batch" then StrategyRef.cls StrategyKind.batch
      else StrategyRef.inst StrategyKind.concurrent

/-- The strategy selection line of ApiBatcher init:
self.strategy = strategy or API_STRATEGY[os.getenv(API_MODE)]. -/
def initStrategy (strategy : Option StrategyRef) (apiMode : Option String) :
    StrategyRef :=
  match strategy with
  | some s => s
  | none => API_STRATEGY apiMode

/-- The one run of a selected strategy instance on (action, entities):
its invocation trace and its raised exception, if any. -/
def strategyDo (k : StrategyKind) (a : String) (es : List Entity) :
    List Event × Option PyError :=
  match k with
  | StrategyKind.sequential => seqDo a es
  | StrategyKind.concurrent => ((concDo a es).1, (concDo a es).2.2)
  | StrategyKind.batch => batchDo a es

/-- ApiBatcher state: the entity buffer and the selected strategy. -/
structure ApiBatcher where
  entities : List Entity
  strategy : StrategyKind

/-- ApiBatcher.enqueue: append to the buffer. -/
def enqueue (b : ApiBatcher) (e : Entity) : ApiBatcher :=
  { b with entities := b.entities ++ [e] }

/-- ApiBatcher.push: fail on an empty queue, otherwise run the selected
strategy with API_POST on the whole queue, then, if that call returned,
with API_SYNC on the whole queue.  A raised exception propagates.  The
buffer is never modified. -/
def push (b : ApiBatcher) : ApiBatcher × List Event × Option PyError :=
  if b.entities.isEmpty then (b, [], some emptyQueueError)
  else
    let r1 := strategyDo b.strategy API_POST b.entities
    match r1.2 with
    | some err => (b, r1.1, some err)
    | none =>
        let r2 := strategyDo b.strategy API_SYNC b.entities
        (b, r1.1 ++ r2.1, r2.2)

/-- A sample entity whose every action succeeds. -/
def eOk : Entity := ⟨2, fun _ => Except.ok ()⟩

/-- A sample entity whose every action raises. -/
def eFail : Entity := ⟨1, fun _ => Except.error "boom"⟩

/-- A batcher holding a failing entity then a succeeding one, with the
sequential strategy selected. -/
def bSeqFail : ApiBatcher := ⟨[eFail, eOk], StrategyKind.sequential⟩

section Lemmas

/-- On a prefix of entities whose actions all succeed, the sequential loop
invokes each in order and then continues into the rest of the list. -/
lemma seqLoop_ok_append (a : String) (pre rest : List Entity)
    (hpre : ∀ e ∈ pre, (e.beh a).isOk = true) :
    seqLoop a (pre ++ rest) =
      (pre.map (fun e => Event.mk e.eid a) ++ (seqLoop a rest).1,
       (seqLoop a rest).2) := by
  induction pre with
  | nil => simp [seqLoop]
  | cons e pre ih =>
      have he : (e.beh a).isOk = true := hpre e (by simp)
      have hrest : ∀ e ∈ pre, (e.beh a).isOk = true := by
        intro x hx; exact hpre x (by simp [hx])
      cases hb : e.beh a with
      | ok v =>
          simp only [List.cons_append, seqLoop, hb, List.append_eq,
            ih hrest, List.map_cons, List.cons_append]
      | error msg => simp [hb, Except.isOk, Except.toBool] at he

/-- On a list of entities whose actions all succeed, the sequential loop
invokes each entity exactly once, in input order, and raises nothing. -/
lemma seqLoop_all_ok (a : String) (es : List Entity)
    (h : ∀ e ∈ es, (e.beh a).isOk = true) :
    seqLoop a es = (es.map (fun e => Event.mk e.eid a), none) := by
  have := seqLoop_ok_append a es [] h
  simpa [seqLoop] using this

/-- Every invocation the sequential loop performs carries its action. -/
lemma seqLoop_act (a : String) (es : List Entity) :
    ∀ ev ∈ (seqLoop a es).1, ev.act = a := by
  induction es with
  | nil => simp [seqLoop]
  | cons e es ih =>
      intro ev hev
      cases hb : e.beh a with
      | ok v =>
          simp only [seqLoop, hb, List.mem_cons] at hev
          rcases hev with h | h
          · simp [h]
          · exact ih ev h
      | error msg =>
          simp only [seqLoop, hb, List.mem_singleton] at hev
          simp [hev]

/-- Every invocation any strategy performs carries the action it was run
with. -/
lemma strategyDo_act (k : StrategyKind) (a : String) (es : List Entity) :
    ∀ ev ∈ (strategyDo k a es).1, ev.act = a := by
  intro ev hev
  cases k with
  | sequential =>
      simp only [strategyDo, seqDo] at hev
      cases h : baseDo a es with
      | some err => simp [h] at hev
      | none =>
          rw [h] at hev
          exact seqLoop_act a es ev hev
  | concurrent =>
      simp only [strategyDo, concDo] at hev
      cases h : baseDo a es with
      | some err => simp [h] at hev
      | none =>
          rw [h] at hev
          simp only [List.mem_map] at hev
          obtain ⟨e, _, rfl⟩ := hev
          rfl
  | batch => simp [strategyDo, batchDo] at hev

/-- The eid of the outcome logged for an entity is the eid of that entity. -/
lemma outcomeOf_eid (a : String) (e : Entity) : (outcomeOf a e).eid = e.eid := by
  unfold outcomeOf
  cases e.beh a <;> rfl

end Lemmas

/-- Claim C1, counterexample.  The claim states that for every valid action
and non-empty entity sequence the sequential strategy performs one outcome
per input entity.  On the concrete input action post, entities
[eFail, eOk], the sequential run raises at the first entity: only one
invocation is performed, not two. -/
theorem C1_cex :
    (seqDo API_POST [eFail, eOk]).1.length ≠
      ([eFail, eOk] : List Entity).length ∧
    (seqDo API_POST [eFail, eOk]).2 = some (PyError.entityError "boom") := by
  constructor
  · decide
  · decide

/-- Claim C1, amended.  For every valid action and non-empty entity
sequence: if every entity action succeeds, the sequential run invokes the
action once per entity, in input order, and raises nothing; and the
concurrent run (regardless of failures) logs exactly one outcome per input
entity, no duplicates, no omissions. -/
theorem C1_amended (a : String) (es : List Entity)
    (ha : a ∈ valid_actions) (hne : es ≠ []) :
    ((∀ e ∈ es, (e.beh a).isOk = true) →
        seqDo a es = (es.map (fun e => Event.mk e.eid a), none)) ∧
    (concDo a es).2.1.length = es.length ∧
    List.Perm ((concDo a es).2.1.map Outcome.eid) (es.map Entity.eid) := by
  have hbase : baseDo a es = none := by
    simp [baseDo, ha, List.isEmpty_iff, hne]
  refine ⟨fun hok => ?_, ?_, ?_⟩
  · simp [seqDo, hbase, seqLoop_all_ok a es hok]
  · simp [concDo, hbase]
  · simp only [concDo, hbase, List.map_map]
    have : (Outcome.eid ∘ outcomeOf a) = Entity.eid := by
      funext e
      exact outcomeOf_eid a e
    rw [this]

/-- Claim C1, witness of the amended theorem at action post and the
one-entity sequence [eOk]. -/
theorem C1_witness :
    seqDo API_POST [eOk] = ([Event.mk 2 API_POST], none) ∧
    List.Perm ((concDo API_POST [eOk]).2.1.map Outcome.eid)
      ([eOk].map Entity.eid) := by
  have h := C1_amended API_POST [eOk] (by decide) (by simp)
  exact ⟨h.1 (by decide), h.2.2⟩

/-- Claim C2, counterexample.  The claim states that a failing entity has
its error captured as its outcome and the run continues to the next entity.
On the concrete input action post, entities [eFail, eOk], the raised
exception propagates out of the sequential run and the second entity is
never invoked. -/
theorem C2_cex :
    Event.mk 2 API_POST ∉ (seqDo API_POST [eFail, eOk]).1 ∧
    (seqDo API_POST [eFail, eOk]).2 = some (PyError.entityError "boom") := by
  constructor
  · decide
  · decide

/-- Claim C2, amended.  If an entity action fails during the sequential
run, the exception propagates out of execute and aborts the run: the
entities before the first failing one are invoked in order, the failing
entity is invoked, and no later entity is invoked. -/
theorem C2_amended (a : String) (pre : List Entity) (f : Entity)
    (post : List Entity) (msg : String) (ha : a ∈ valid_actions)
    (hpre : ∀ e ∈ pre, (e.beh a).isOk = true)
    (hf : f.beh a = Except.error msg) :
    seqDo a (pre ++ f :: post) =
      (pre.map (fun e => Event.mk e.eid a) ++ [Event.mk f.eid a],
       some (PyError.entityError msg)) := by
  have hbase : baseDo a (pre ++ f :: post) = none := by
    simp [baseDo, ha, List.isEmpty_iff]
  have hloop := seqLoop_ok_append a pre (f :: post) hpre
  simp only [seqDo, hbase, hloop, seqLoop, hf]

/-- Claim C2, witness of the amended theorem: with entities
[eOk, eFail, eOk] and action post, the first entity is invoked, the failing
second entity is invoked, the exception propagates, and the third entity is
never invoked. -/
theorem C2_witness :
    seqDo API_POST [eOk, eFail, eOk] =
      ([Event.mk 2 API_POST, Event.mk 1 API_POST],
       some (PyError.entityError "boom")) :=
  C2_amended API_POST [eOk] eFail [eOk] "boom" (by decide)
    (by decide) rfl

/-- Claim C3, counterexample.  The claim states that every strategy fails
with the invalid-action error on an unsupported action.  On the concrete
input action delete, entities [eOk], the batch strategy raises
NotImplementedError instead: it never runs the precondition checks. -/
theorem C3_cex :
    (batchDo "delete" [eOk]).2 ≠ some (invalidActionError "delete") ∧
    (batchDo "delete" [eOk]).2 = some notImplementedErr := by
  constructor
  · decide
  · decide

/-- Claim C3, amended.  For an action outside the supported set, the
sequential and concurrent strategies fail with the invalid-action error and
invoke no entity action; the batch strategy also invokes no entity action
but fails with NotImplementedError instead. -/
theorem C3_amended (a : String) (es : List Entity)
    (ha : a ∉ valid_actions) :
    seqDo a es = ([], some (invalidActionError a)) ∧
    concDo a es = ([], [], some (invalidActionError a)) ∧
    batchDo a es = ([], some notImplementedErr) := by
  have hbase : baseDo a es = some (invalidActionError a) := by
    simp [baseDo, ha]
  exact ⟨by simp [seqDo, hbase], by simp [concDo, hbase], rfl⟩

/-- Claim C3, witness of the amended theorem at action delete and entities
[eOk]. -/
theorem C3_witness :
    seqDo "delete" [eOk] = ([], some (invalidActionError "delete")) ∧
    concDo "delete" [eOk] = ([], [], some (invalidActionError "delete")) ∧
    batchDo "delete" [eOk] = ([], some notImplementedErr) :=
  C3_amended "delete" [eOk] (by decide)

/-- Claim C4, counterexample.  The claim states that every strategy fails
with the empty-input error on an empty entity sequence.  On the concrete
input action post, empty entity list, the batch strategy raises
NotImplementedError instead: it never runs the precondition checks. -/
theorem C4_cex :
    (batchDo API_POST []).2 ≠ some emptyInputError ∧
    (batchDo API_POST []).2 = some notImplementedErr := by
  constructor
  · decide
  · decide

/-- Claim C4, amended.  For a supported action and an empty entity
sequence, the sequential and concurrent strategies fail with the
empty-input error and perform no work; the batch strategy also performs no
work but fails with NotImplementedError instead. -/
theorem C4_amended (a : String) (ha : a ∈ valid_actions) :
    seqDo a [] = ([], some emptyInputError) ∧
    concDo a [] = ([], [], some emptyInputError) ∧
    batchDo a [] = ([], some notImplementedErr) := by
  have hbase : baseDo a [] = some emptyInputError := by
    simp [baseDo, ha]
  exact ⟨by simp [seqDo, hbase], by simp [concDo, hbase], rfl⟩

/-- Claim C4, witness of the amended theorem at action sync. -/
theorem C4_witness :
    seqDo API_SYNC [] = ([], some emptyInputError) ∧
    concDo API_SYNC [] = ([], [], some emptyInputError) ∧
    batchDo API_SYNC [] = ([], some notImplementedErr) :=
  C4_amended API_SYNC (by decide)

/-- Claim C5, counterexample.  The claim states that for every non-empty
queue, push performs a complete POST pass over the full queue and
afterwards a complete SYNC pass over the full queue.  On the concrete
batcher bSeqFail (queue [eFail, eOk], sequential strategy), the POST pass
raises at the first entity: the second entity is never POSTed and no
entity is ever SYNCed. -/
theorem C5_cex :
    (push bSeqFail).2.1 = [Event.mk 1 API_POST] ∧
    Event.mk 2 API_POST ∉ (push bSeqFail).2.1 ∧
    Event.mk 1 API_SYNC ∉ (push bSeqFail).2.1 ∧
    (push bSeqFail).2.2 = some (PyError.entityError "boom") := by
  refine ⟨by decide, by decide, by decide, by decide⟩

/-- Claim C5, amended.  For every non-empty queue, push runs the POST pass
over the full queue first; the SYNC pass over the full queue runs only
after the POST pass has returned and only if the POST pass raised nothing,
and the two passes are never interleaved: the trace is the POST-pass trace
followed (when the POST pass raised nothing) by the SYNC-pass trace, every
invocation of the first part being a POST and every invocation of the
second part a SYNC. -/
theorem C5_amended (b : ApiBatcher) (hne : b.entities ≠ []) :
    (push b).2.1 =
      (strategyDo b.strategy API_POST b.entities).1 ++
        (if (strategyDo b.strategy API_POST b.entities).2 = none
         then (strategyDo b.strategy API_SYNC b.entities).1 else []) ∧
    (∀ ev ∈ (strategyDo b.strategy API_POST b.entities).1,
        ev.act = API_POST) ∧
    (∀ ev ∈ (strategyDo b.strategy API_SYNC b.entities).1,
        ev.act = API_SYNC) := by
  have hemp : b.entities.isEmpty = false := by
    simp [List.isEmpty_iff, hne]
  refine ⟨?_, strategyDo_act _ _ _, strategyDo_act _ _ _⟩
  cases h : (strategyDo b.strategy API_POST b.entities).2 with
  | some err => simp [push, hemp, h]
  | none => simp [push, hemp, h]

/-- Claim C5, witness of the amended theorem at a one-entity queue with the
concurrent strategy: the trace is the full POST pass followed by the full
SYNC pass. -/
theorem C5_witness :
    (push ⟨[eOk], StrategyKind.concurrent⟩).2.1 =
      (strategyDo StrategyKind.concurrent API_POST [eOk]).1 ++
        (if (strategyDo StrategyKind.concurrent API_POST [eOk]).2 = none
         then (strategyDo StrategyKind.concurrent API_SYNC [eOk]).1
         else []) :=
  (C5_amended ⟨[eOk], StrategyKind.concurrent⟩ (by simp)).1

/-- Claim C6.  Push on a batcher with an empty queue fails with the
empty-queue error before any strategy call: the state is unchanged, the
trace is empty, so no strategy work and no entity action happens. -/
theorem C6_push_empty_queue (b : ApiBatcher) (h : b.entities = []) :
    push b = (b, [], some emptyQueueError) := by
  simp [push, h]

/-- Claim C6, witness at an empty batcher with the concurrent strategy. -/
theorem C6_witness :
    push ⟨[], StrategyKind.concurrent⟩ =
      (⟨[], StrategyKind.concurrent⟩, [], some emptyQueueError) :=
  C6_push_empty_queue ⟨[], StrategyKind.concurrent⟩ rfl

/-- Claim C7.  An explicitly injected strategy always wins over the
configuration value; with no injection, an absent or unrecognized
configuration value selects a concurrent-strategy instance. -/
theorem C7_strategy_selection :
    (∀ (s : StrategyRef) (apiMode : Option String),
        initStrategy (some s) apiMode = s) ∧
    initStrategy none none = StrategyRef.inst StrategyKind.concurrent ∧
    (∀ m : String, m ≠ "sequential" → m ≠ "concurrent" → m ≠ "batch" →
        initStrategy none (some m) =
          StrategyRef.inst StrategyKind.concurrent) := by
  refine ⟨fun s apiMode => rfl, rfl, fun m h1 h2 h3 => ?_⟩
  simp [initStrategy, API_STRATEGY, h1, h2, h3]

/-- Claim C7, witness: an injected batch instance wins over a config value
naming sequential, and the unrecognized config value turbo selects a
concurrent instance. -/
theorem C7_witness :
    initStrategy (some (StrategyRef.inst StrategyKind.batch))
        (some "sequential") = StrategyRef.inst StrategyKind.batch ∧
    initStrategy none (some "turbo") =
      StrategyRef.inst StrategyKind.concurrent :=
  ⟨C7_strategy_selection.1 (StrategyRef.inst StrategyKind.batch)
      (some "sequential"),
   C7_strategy_selection.2.2 "turbo" (by decide) (by decide) (by decide)⟩

/-- Claim C8.  The batch strategy fails with NotImplementedError for every
supported action and non-empty entity sequence, and invokes no entity
action (its trace is empty). -/
theorem C8_batch_not_implemented (a : String) (es : List Entity)
    (_ha : a ∈ valid_actions) (_hne : es ≠ []) :
    batchDo a es = ([], some notImplementedErr) :=
  rfl

/-- Claim C8, witness at action post and entities [eOk]. -/
theorem C8_witness : batchDo API_POST [eOk] = ([], some notImplementedErr) :=
  C8_batch_not_implemented API_POST [eOk] (by decide) (by simp)

/-- Claim C9.  Push never clears or reorders the queue: whatever the
strategy did and whether or not an exception propagated, the batcher state
push returns holds the same entities in the same order as before the
call. -/
theorem C9_push_preserves_queue (b : ApiBatcher) (_hne : b.entities ≠ []) :
    (push b).1.entities = b.entities := by
  simp only [push]
  split
  · rfl
  · split <;> rfl

/-- Claim C9, witness at the batcher bSeqFail, whose POST pass raises: the
queue still holds [eFail, eOk] afterwards. -/
theorem C9_witness : (push bSeqFail).1.entities = [eFail, eOk] :=
  C9_push_preserves_queue bSeqFail (by simp [bSeqFail])

/-- Claim C10.  The default-strategy lookup is asymmetric: the three
recognized mode strings are mapped to the corresponding strategy class
objects themselves, while an absent or unrecognized mode goes through the
defaultdict factory and yields a freshly constructed concurrent-strategy
instance; a class object is never an instance. -/
theorem C10_lookup_asymmetry :
    API_STRATEGY (some "sequential") =
        StrategyRef.cls StrategyKind.sequential ∧
    API_STRATEGY (some "concurrent") =
        StrategyRef.cls StrategyKind.concurrent ∧
    API_STRATEGY (some "batch") = StrategyRef.cls StrategyKind.batch ∧
    API_STRATEGY none = StrategyRef.inst StrategyKind.concurrent ∧
    (∀ m : String, m ≠ "sequential" → m ≠ "concurrent" → m ≠ "batch" →
        API_STRATEGY (some m) = StrategyRef.inst StrategyKind.concurrent) ∧
    (∀ k k' : StrategyKind, StrategyRef.cls k ≠ StrategyRef.inst k') := by
  refine ⟨rfl, rfl, rfl, rfl, fun m h1 h2 h3 => ?_, fun k k' => ?_⟩
  · simp [API_STRATEGY, h1, h2, h3]
  · intro h
    cases h

/-- Claim C10, witness: the recognized mode batch yields the batch class
object, which is not the concurrent instance the unrecognized mode turbo
yields. -/
theorem C10_witness :
    API_STRATEGY (some "batch") = StrategyRef.cls StrategyKind.batch ∧
    API_STRATEGY (some "turbo") = StrategyRef.inst StrategyKind.concurrent ∧
    StrategyRef.cls StrategyKind.batch ≠
      StrategyRef.inst StrategyKind.concurrent :=
  ⟨C10_lookup_asymmetry.2.2.1,
   C10_lookup_asymmetry.2.2.2.2.1 "turbo" (by decide) (by decide) (by decide),
   C10_lookup_asymmetry.2.2.2.2.2 StrategyKind.batch StrategyKind.concurrent⟩
